import Mathlib

/-!
Verification of the email-counting service (`src/email-counter.ts`).

The service exposes `countEmails(dbName, collectionName)`, which opens a
MongoDB client, runs a read probe and five read-only queries against a
collection, and returns an `EmailCounts` record; an Express route
`POST /api/count-emails` validates the request body and maps the result
(or a thrown error) to an HTTP response.

The only document field the queries inspect is `email`.  The `email` field of a document is either absent, an explicit `null`, or a string, so a
collection is modelled as a `List EmailField`.  The MongoDB operators are
embedded with their documented semantics:

* `{ email: { $ne: v } }` matches every document whose `email` value is
  not `v`, including documents where the field is absent or `null`;
* `collection.distinct` on the email field returns the distinct values of
  the `email` field among matching documents: an explicit `null`
  contributes the value `null`, an absent field contributes nothing;
* `{ email: v }` for a string `v` matches only documents whose `email`
  equals `v`;
* `{ email: null }` matches documents whose `email` is absent or `null`;
* in an aggregation `$group` with `_id` set to the email field, documents with an
  absent `email` and documents with `email: null` share the single
  grouping key `null`.
-/

/-- The `email` field of one document: absent, explicit `null`, or a string. -/
inductive EmailField where
  | missing
  | null
  | str (s : String)
deriving DecidableEq, Repr

/-- The sentinel "locked" address used throughout `countEmails`. -/
def sentinelEmail : String := "email_not_unlocked@domain.com"

/-- A value returned by `collection.distinct`: an explicit
`null` or a string.  An absent field contributes no value. -/
inductive EmailValue where
  | vnull
  | vstr (s : String)
deriving DecidableEq, Repr

/-- The value the `email` field contributes to a `distinct` result:
nothing when absent, `vnull` for an explicit `null`, the string otherwise. -/
def emailValue : EmailField → Option EmailValue
  | .missing => none
  | .null => some .vnull
  | .str s => some (.vstr s)

/-- The filter `{ email: { $ne: email_not_unlocked@domain.com } }`:
matches every document whose `email` is not the sentinel string, which
includes documents with an absent or `null` email. -/
def matchesNeSentinel : EmailField → Bool
  | .missing => true
  | .null => true
  | .str s => decide (s ≠ sentinelEmail)

/-- `collection.distinct` on the email field over the non-sentinel filter: the
distinct `email` values among documents matching the `$ne` filter. -/
def distinctEmails (c : List EmailField) : List EmailValue :=
  ((c.filter matchesNeSentinel).filterMap emailValue).dedup

/-- `collection.countDocuments` with an exact-match filter on the sentinel:
an exact string match, not satisfied by absent or `null` emails. -/
def lockedEmailsCount (c : List EmailField) : Nat :=
  c.countP fun e => decide (e = .str sentinelEmail)

/-- The clause `{ email: { $exists: false } }`. -/
def matchExistsFalse : EmailField → Bool
  | .missing => true
  | _ => false

/-- The clause `{ email: null }`: in MongoDB this matches documents whose
`email` is absent as well as documents with an explicit `null`. -/
def matchEqNull : EmailField → Bool
  | .missing => true
  | .null => true
  | _ => false

/-- The clause matching an empty-string email. -/
def matchEqEmptyString : EmailField → Bool
  | .str s => decide (s = "")
  | _ => false

/-- `collection.countDocuments({ $or: [ {email: {$exists:false}},
{email: null}, {email: empty} ] })`: one count per matching document, however
many clauses it satisfies. -/
def emptyEmailsCount (c : List EmailField) : Nat :=
  c.countP fun e => matchExistsFalse e || matchEqNull e || matchEqEmptyString e

/-- A `$group` key `_id` set to the email field: absent and `null` emails share the
single key `knull`; a string email groups under its own key. -/
inductive GroupKey where
  | knull
  | kstr (s : String)
deriving DecidableEq, Repr

/-- The grouping key of one document. -/
def groupKey : EmailField → GroupKey
  | .missing => .knull
  | .null => .knull
  | .str s => .kstr s

/-- Add one occurrence of key `k` to an accumulated `$group` result:
increment the existing `(k, count)` entry, or start a new one at 1. -/
def bump (k : GroupKey) : List (GroupKey × Nat) → List (GroupKey × Nat)
  | [] => [(k, 1)]
  | (k', n) :: rest => if k = k' then (k', n + 1) :: rest else (k', n) :: bump k rest

/-- The `$group` stage keyed on the email field with a running count: one output
entry per distinct grouping key, carrying its number of occurrences. -/
def groupByEmail : List GroupKey → List (GroupKey × Nat)
  | [] => []
  | k :: ks => bump k (groupByEmail ks)

/-- The duplicate-email aggregation pipeline of `countEmails`:
`$match` non-sentinel emails, `$group` by the email field with a count, then
`$match: { count: { $gt: 1 } }`.  Returned as the array the code calls
`.toArray()` on. -/
def duplicateEmailResults (c : List EmailField) : List (GroupKey × Nat) :=
  (groupByEmail ((c.filter matchesNeSentinel).map groupKey)).filter fun g => 1 < g.2

/-- The result shape returned by `countEmails`. -/
@[ext]
structure EmailCounts where
  total_documents : Nat
  actual_amount : Nat
  enu_count : Nat
  duplicate_emails : Nat
  empty_emails : Nat
deriving DecidableEq, Repr

/-- The five statistics `countEmails` computes over the collection, as the
record it returns on success: `countDocuments({})`, the length of the
`distinct` array, the sentinel count, the length of the duplicate pipeline
output, and the empty/null/absent count. -/
def countEmailsPure (c : List EmailField) : EmailCounts :=
  { total_documents := c.length
  , actual_amount := (distinctEmails c).length
  , enu_count := lockedEmailsCount c
  , duplicate_emails := (duplicateEmailResults c).length
  , empty_emails := emptyEmailsCount c }

/-- A thrown JavaScript value: an `Error` object carrying a message, or
any non-`Error` value (for which the handler has a fallback message). -/
inductive JsError where
  | errorObj (message : String)
  | nonErrorValue
deriving DecidableEq, Repr

/-- The external state a `countEmails` call runs against: the target
contents of the collection, plus the outcome of each fallible driver call
(`connect`, the `findOne` probe, and the five queries) — `none` means the
call succeeds, `some e` means it throws `e`. -/
structure DbWorld where
  coll : List EmailField
  connectErr : Option JsError
  probeErr : Option JsError
  totalErr : Option JsError
  distinctErr : Option JsError
  lockedErr : Option JsError
  emptyErr : Option JsError
  aggErr : Option JsError
deriving DecidableEq, Repr

/-- A world in which every driver call succeeds. -/
def cleanWorld (c : List EmailField) : DbWorld :=
  ⟨c, none, none, none, none, none, none, none⟩

/-- What happened to the client connection during a `countEmails` call. -/
structure ConnTrace where
  connectAttempted : Bool
  connectionClosed : Bool
deriving DecidableEq, Repr

/-- `client.connect()`: a read-side effect that never alters the store. -/
def opConnect (w : DbWorld) : Except JsError Unit × DbWorld :=
  (match w.connectErr with | some e => .error e | none => .ok (), w)

/-- `collection.findOne({}, { projection: { _id: 1 } })`: the read-access
probe; its result is discarded, only success or failure matters. -/
def opProbe (w : DbWorld) : Except JsError Unit × DbWorld :=
  (match w.probeErr with | some e => .error e | none => .ok (), w)

/-- `collection.countDocuments({})`: a read returning the document count. -/
def opTotalDocuments (w : DbWorld) : Except JsError Nat × DbWorld :=
  (match w.totalErr with | some e => .error e | none => .ok w.coll.length, w)

/-- `collection.distinct` on the email field over the non-sentinel filter. -/
def opDistinctEmails (w : DbWorld) : Except JsError (List EmailValue) × DbWorld :=
  (match w.distinctErr with | some e => .error e | none => .ok (distinctEmails w.coll), w)

/-- `collection.countDocuments({ email: sentinel })`. -/
def opLockedEmails (w : DbWorld) : Except JsError Nat × DbWorld :=
  (match w.lockedErr with | some e => .error e | none => .ok (lockedEmailsCount w.coll), w)

/-- `collection.countDocuments({ $or: [absent, null, empty] })`. -/
def opEmptyEmails (w : DbWorld) : Except JsError Nat × DbWorld :=
  (match w.emptyErr with | some e => .error e | none => .ok (emptyEmailsCount w.coll), w)

/-- `collection.aggregate(duplicateEmailPipeline).toArray()`. -/
def opAggregateDuplicates (w : DbWorld) : Except JsError (List (GroupKey × Nat)) × DbWorld :=
  (match w.aggErr with | some e => .error e | none => .ok (duplicateEmailResults w.coll), w)

/-- The `try` block of `countEmails`: connect, probe, then the five
queries in source order, short-circuiting on the first thrown error and
otherwise assembling the `EmailCounts` return value. -/
def countEmailsTry (w : DbWorld) : Except JsError EmailCounts × DbWorld :=
  match opConnect w with
  | (.error e, w1) => (.error e, w1)
  | (.ok _, w1) =>
  match opProbe w1 with
  | (.error e, w2) => (.error e, w2)
  | (.ok _, w2) =>
  match opTotalDocuments w2 with
  | (.error e, w3) => (.error e, w3)
  | (.ok totalDocuments, w3) =>
  match opDistinctEmails w3 with
  | (.error e, w4) => (.error e, w4)
  | (.ok uniqueEmails, w4) =>
  match opLockedEmails w4 with
  | (.error e, w5) => (.error e, w5)
  | (.ok lockedEmails, w5) =>
  match opEmptyEmails w5 with
  | (.error e, w6) => (.error e, w6)
  | (.ok emptyEmails, w6) =>
  match opAggregateDuplicates w6 with
  | (.error e, w7) => (.error e, w7)
  | (.ok duplicateResults, w7) =>
    (.ok { total_documents := totalDocuments
         , actual_amount := uniqueEmails.length
         , enu_count := lockedEmails
         , duplicate_emails := duplicateResults.length
         , empty_emails := emptyEmails }, w7)

/-- The exact message of the error `countEmails` throws when the
connection string is not configured. -/
def uriMissingMessage : String :=
  "MONGODB_URI environment variable is not set in .env file"

/-- `countEmails(dbName, collectionName)` as a function of the
`MONGODB_URI` environment variable and the external world.  With no URI
configured it throws before constructing a client, so no connection is
attempted; otherwise the `try` body runs with `client.close()` in a
`finally`, so the connection is closed on every exit path.  Returns the
outcome of the call, the connection trace, and the world after the call. -/
def countEmails (mongodbUri : Option String) (w : DbWorld) :
    (Except JsError EmailCounts × ConnTrace) × DbWorld :=
  match mongodbUri with
  | none => ((.error (.errorObj uriMissingMessage), ⟨false, false⟩), w)
  | some _ =>
    let result := countEmailsTry w
    ((result.1, ⟨true, true⟩), result.2)

/-- A request body for `POST /api/count-emails`: each field is absent
(`none`) or a string; the empty string is the falsy string. -/
structure ReqBody where
  database_name : Option String
  collection_name : Option String
deriving DecidableEq, Repr

/-- JavaScript truthiness of an optional string field. -/
def truthy : Option String → Bool
  | none => false
  | some s => decide (s ≠ "")

/-- The message `error instanceof Error ? error.message : fallback` selects, where the
fallback is the generic unknown-error string. -/
def jsErrorMessage : JsError → String
  | .errorObj m => m
  | .nonErrorValue => "An unknown error occurred"

/-- The 400 response body for a request missing a required field. -/
def missingFieldsMessage : String :=
  "Missing required fields: database_name and collection_name are required"

/-- A JSON response body: either an `EmailCounts` or `{ error: msg }`. -/
inductive RespBody where
  | countsBody (c : EmailCounts)
  | errorBody (msg : String)
deriving DecidableEq, Repr

/-- An HTTP response: status code and JSON body. -/
structure HttpResp where
  status : Nat
  body : RespBody
deriving DecidableEq, Repr

/-- Everything observable about one handled request: the response, whether
`countEmails` was invoked, and the connection trace of that invocation
(`⟨false, false⟩` when it never ran). -/
structure HandlerOutcome where
  resp : HttpResp
  countEmailsInvoked : Bool
  trace : ConnTrace
deriving DecidableEq, Repr

/-- The `POST /api/count-emails` route: validate the two required body
fields (400 on a missing or falsy field, with no database access),
otherwise invoke `countEmails` and map success to a 200 JSON body and a
thrown error to a 500 error body with the message of the error or the generic
fallback. -/
def handleCountEmails (b : ReqBody) (mongodbUri : Option String) (w : DbWorld) :
    HandlerOutcome :=
  if !truthy b.database_name || !truthy b.collection_name then
    ⟨⟨400, .errorBody missingFieldsMessage⟩, false, ⟨false, false⟩⟩
  else
    match countEmails mongodbUri w with
    | ((.ok counts, tr), _) => ⟨⟨200, .countsBody counts⟩, true, tr⟩
    | ((.error e, tr), _) => ⟨⟨500, .errorBody (jsErrorMessage e)⟩, true, tr⟩

/-! ### Properties of the `$group` stage -/

/-- Total occurrence count recorded for key `k` in a `$group` accumulator. -/
def countOf (acc : List (GroupKey × Nat)) (k : GroupKey) : Nat :=
  match acc with
  | [] => 0
  | (k', n) :: rest => if k = k' then n + countOf rest k else countOf rest k

lemma countOf_bump_self (acc : List (GroupKey × Nat)) (k : GroupKey) :
    countOf (bump k acc) k = countOf acc k + 1 := by
  induction acc with
  | nil => simp [bump, countOf]
  | cons p rest ih =>
    obtain ⟨k', n⟩ := p
    by_cases h : k = k'
    · subst h
      simp [bump, countOf]
      omega
    · simp [bump, countOf, h, ih]

lemma countOf_bump_ne (acc : List (GroupKey × Nat)) (k k' : GroupKey) (h : k' ≠ k) :
    countOf (bump k acc) k' = countOf acc k' := by
  induction acc with
  | nil => simp [bump, countOf, h]
  | cons p rest ih =>
    obtain ⟨k'', n⟩ := p
    by_cases hk : k = k''
    · subst hk
      simp [bump, countOf, h]
    · by_cases hk' : k' = k''
      · subst hk'
        simp [bump, countOf, hk, ih]
      · simp [bump, countOf, hk, hk', ih]

lemma countOf_groupByEmail (ks : List GroupKey) (k : GroupKey) :
    countOf (groupByEmail ks) k = ks.count k := by
  induction ks with
  | nil => simp [groupByEmail, countOf]
  | cons k' ks ih =>
    by_cases h : k = k'
    · subst h
      simp [groupByEmail, countOf_bump_self, ih, List.count_cons_self]
    · rw [groupByEmail, countOf_bump_ne (groupByEmail ks) k' k h, ih, List.count_cons]
      have h' : ¬k' = k := fun hh => h hh.symm
      simp [h']

lemma mem_map_fst_bump (acc : List (GroupKey × Nat)) (k k' : GroupKey) :
    k' ∈ (bump k acc).map Prod.fst ↔ k' = k ∨ k' ∈ acc.map Prod.fst := by
  induction acc with
  | nil => simp [bump]
  | cons p rest ih =>
    obtain ⟨k'', n⟩ := p
    by_cases hk : k = k''
    · subst hk
      simp [bump]
    · simp only [bump, if_neg hk, List.map_cons, List.mem_cons, ih]
      tauto

lemma nodup_map_fst_bump (acc : List (GroupKey × Nat)) (k : GroupKey)
    (h : (acc.map Prod.fst).Nodup) : ((bump k acc).map Prod.fst).Nodup := by
  induction acc with
  | nil => simp [bump]
  | cons p rest ih =>
    obtain ⟨k'', n⟩ := p
    simp only [List.map_cons, List.nodup_cons] at h
    by_cases hk : k = k''
    · subst hk
      simpa [bump] using h
    · simp only [bump, if_neg hk, List.map_cons, List.nodup_cons]
      refine ⟨?_, ih h.2⟩
      rw [mem_map_fst_bump]
      push_neg
      exact ⟨fun hek => hk hek.symm, h.1⟩

lemma nodup_map_fst_groupByEmail (ks : List GroupKey) :
    ((groupByEmail ks).map Prod.fst).Nodup := by
  induction ks with
  | nil => simp [groupByEmail]
  | cons k ks ih => exact nodup_map_fst_bump _ _ ih

lemma mem_map_fst_groupByEmail (ks : List GroupKey) (k : GroupKey) :
    k ∈ (groupByEmail ks).map Prod.fst ↔ k ∈ ks := by
  induction ks with
  | nil => simp [groupByEmail]
  | cons k' ks ih => rw [groupByEmail, mem_map_fst_bump, ih, List.mem_cons]

lemma countOf_eq_zero_of_not_mem (acc : List (GroupKey × Nat)) (k : GroupKey)
    (h : k ∉ acc.map Prod.fst) : countOf acc k = 0 := by
  induction acc with
  | nil => simp [countOf]
  | cons p rest ih =>
    obtain ⟨k', n⟩ := p
    simp only [List.map_cons, List.mem_cons] at h
    push_neg at h
    simp [countOf, h.1, ih h.2]

lemma snd_eq_countOf (acc : List (GroupKey × Nat)) (h : (acc.map Prod.fst).Nodup) :
    ∀ p ∈ acc, p.2 = countOf acc p.1 := by
  induction acc with
  | nil => simp
  | cons q rest ih =>
    obtain ⟨k', n⟩ := q
    simp only [List.map_cons, List.nodup_cons] at h
    intro p hp
    rcases List.mem_cons.1 hp with hp | hp
    · subst hp
      simp [countOf, countOf_eq_zero_of_not_mem rest _ h.1]
    · have hne : p.1 ≠ k' := by
        intro he
        exact h.1 (he ▸ List.mem_map_of_mem Prod.fst hp)
      simp [countOf, hne, ih h.2 p hp]

lemma mem_groupByEmail_snd (ks : List GroupKey) :
    ∀ p ∈ groupByEmail ks, p.2 = ks.count p.1 := fun p hp =>
  (snd_eq_countOf _ (nodup_map_fst_groupByEmail ks) p hp).trans
    (countOf_groupByEmail ks p.1)

/-- The size of the output of the duplicate pipeline over a key list `ks`: one
entry per distinct key occurring more than once in `ks`. -/
lemma groupByEmail_duplicates_length (ks : List GroupKey) :
    ((groupByEmail ks).filter fun g => 1 < g.2).length
      = (ks.dedup.filter fun k => 1 < ks.count k).length := by
  have h1 : ((groupByEmail ks).filter fun g => 1 < g.2)
      = (groupByEmail ks).filter fun g => 1 < ks.count g.1 := by
    apply List.filter_congr
    intro p hp
    rw [mem_groupByEmail_snd ks p hp]
  have h2 : (((groupByEmail ks).map Prod.fst).filter fun k => 1 < ks.count k).length
      = ((groupByEmail ks).filter fun g => 1 < ks.count g.1).length := by
    rw [List.filter_map, List.length_map]
    rfl
  rw [h1, ← h2]
  have hperm : List.Perm ((groupByEmail ks).map Prod.fst) ks.dedup := by
    refine (List.perm_ext_iff_of_nodup (nodup_map_fst_groupByEmail ks) (List.nodup_dedup ks)).2
      fun k => ?_
    rw [mem_map_fst_groupByEmail, List.mem_dedup]
  exact (hperm.filter _).length_eq

/-! ### Bridging lemmas -/

/-- Filtering out sentinel records and then taking grouping keys is the
same as taking the grouping key of every record and dropping the sentinel key. -/
lemma map_groupKey_filter (c : List EmailField) :
    (c.filter matchesNeSentinel).map groupKey
      = (c.map groupKey).filter fun k => k ≠ .kstr sentinelEmail := by
  induction c with
  | nil => simp
  | cons e c ih =>
    cases e with
    | missing => simpa [matchesNeSentinel, groupKey] using ih
    | null => simpa [matchesNeSentinel, groupKey] using ih
    | str s =>
      by_cases h : s = sentinelEmail
      · subst h
        simpa [matchesNeSentinel, groupKey] using ih
      · simpa [matchesNeSentinel, groupKey, h] using ih

/-- Filtering out sentinel records and then collecting `distinct` values
is the same as collecting the value of every record and dropping the sentinel
value. -/
lemma filterMap_emailValue_filter (c : List EmailField) :
    (c.filter matchesNeSentinel).filterMap emailValue
      = (c.filterMap emailValue).filter fun v => v ≠ .vstr sentinelEmail := by
  induction c with
  | nil => simp
  | cons e c ih =>
    cases e with
    | missing => simpa [matchesNeSentinel, emailValue] using ih
    | null => simpa [matchesNeSentinel, emailValue] using ih
    | str s =>
      by_cases h : s = sentinelEmail
      · subst h
        simpa [matchesNeSentinel, emailValue] using ih
      · simpa [matchesNeSentinel, emailValue, h] using ih

/-- Occurrences of the `null` grouping key among the non-sentinel records
are exactly the records with an absent or `null` email. -/
lemma count_knull_keys (c : List EmailField) :
    ((c.filter matchesNeSentinel).map groupKey).count GroupKey.knull
      = c.countP fun e => decide (e = .missing ∨ e = .null) := by
  induction c with
  | nil => simp
  | cons e c ih =>
    cases e with
    | missing => simp [matchesNeSentinel, groupKey, List.count_cons, List.countP_cons, ih]
    | null => simp [matchesNeSentinel, groupKey, List.count_cons, List.countP_cons, ih]
    | str s =>
      by_cases h : s = sentinelEmail
      · subst h
        simp [matchesNeSentinel, List.countP_cons, ih]
      · simp [matchesNeSentinel, groupKey, h, List.count_cons, List.countP_cons, ih]

/-- Grouping a constant key list yields one entry with the full count. -/
lemma groupByEmail_replicate (n : Nat) (k : GroupKey) (h : 1 ≤ n) :
    groupByEmail (List.replicate n k) = [(k, n)] := by
  induction n with
  | zero => omega
  | succ m ih =>
    by_cases hm : m = 0
    · subst hm
      simp [List.replicate, groupByEmail, bump]
    · rw [List.replicate_succ, groupByEmail, ih (by omega)]
      simp [bump]

/-- The `try` block consists solely of reads: the world is unchanged. -/
lemma countEmailsTry_world (w : DbWorld) : (countEmailsTry w).2 = w := by
  rcases w with ⟨coll, ce, pe, te, de, le, ee, ae⟩
  cases ce <;> cases pe <;> cases te <;> cases de <;> cases le <;> cases ee <;> cases ae <;> rfl

/-- On a world where every driver call succeeds, `countEmails` returns the
five statistics of the collection, with the connection opened and closed
and the world unchanged. -/
lemma countEmails_cleanWorld (u : String) (c : List EmailField) :
    countEmails (some u) (cleanWorld c)
      = ((Except.ok (countEmailsPure c), ⟨true, true⟩), cleanWorld c) := rfl

/-! ### Definitions following the words of the spec, for comparison -/

/-- Modelled from the spec text of claim C1: the distinct email values
(excluding the sentinel) that occur in more than one record — group
records by their email value, keep groups of size over 1, count the
groups.  A record with an absent email carries no value at all, and an
explicit `null` is its own value. -/
def specDuplicateEmails (c : List EmailField) : Nat :=
  (((c.filterMap emailValue).filter fun v => v ≠ .vstr sentinelEmail).dedup.filter
      fun v => 1 < ((c.filterMap emailValue).filter
        fun v' => v' ≠ .vstr sentinelEmail).count v).length

/-- Modelled from the spec text of claim C2: the number of unique
non-empty string values of the email field among records whose email is
not the sentinel; empty and null emails contribute nothing. -/
def specActualAmount (c : List EmailField) : Nat :=
  ((c.filterMap fun e => match e with
      | EmailField.str s => if s ≠ sentinelEmail ∧ s ≠ "" then some s else none
      | _ => none).dedup).length

/-! ### Claims -/

/-- Claim C1, counterexample.  On the collection `[missing, null]` no
email value occurs in more than one record (the absent email has no
value, the explicit `null` occurs once), so the description in the spec gives
0 duplicates; yet the `$group` stage of the pipeline collapses both records onto the
single `null` key and `countEmails` reports `duplicate_emails = 1`. -/
theorem duplicate_emails_missing_null_cex :
    (countEmailsPure [EmailField.missing, EmailField.null]).duplicate_emails = 1
    ∧ specDuplicateEmails [EmailField.missing, EmailField.null] = 0
    ∧ (countEmailsPure [EmailField.missing, EmailField.null]).duplicate_emails
        ≠ specDuplicateEmails [EmailField.missing, EmailField.null] := by decide

/-- Claim C1, amended.  `duplicate_emails` returned by `countEmails`
equals the number of distinct grouping keys — email values with absent
and `null` emails both collapsed onto a single `null` key — that, after
excluding sentinel records, occur in more than one record. -/
theorem duplicate_emails_counts_duplicate_keys (u : String) (c : List EmailField) :
    (countEmails (some u) (cleanWorld c)).1.1 = Except.ok (countEmailsPure c)
    ∧ (countEmailsPure c).duplicate_emails
        = (((c.map groupKey).filter fun k => k ≠ .kstr sentinelEmail).dedup.filter
            fun k => 1 < ((c.map groupKey).filter
              fun k' => k' ≠ .kstr sentinelEmail).count k).length := by
  refine ⟨by rw [countEmails_cleanWorld], ?_⟩
  show (duplicateEmailResults c).length = _
  rw [duplicateEmailResults, map_groupKey_filter, groupByEmail_duplicates_length]

/-- Claim C2, counterexample.  On the collection `[null, str ""]` the
description in the spec (unique non-empty values; empty and null do not
contribute) gives 0, yet `distinct` collects both the explicit `null`
and the empty string, so `countEmails` reports `actual_amount = 2`. -/
theorem actual_amount_null_empty_cex :
    (countEmailsPure [EmailField.null, EmailField.str ""]).actual_amount = 2
    ∧ specActualAmount [EmailField.null, EmailField.str ""] = 0
    ∧ (countEmailsPure [EmailField.null, EmailField.str ""]).actual_amount
        ≠ specActualAmount [EmailField.null, EmailField.str ""] := by decide

/-- Claim C2, amended.  `actual_amount` returned by `countEmails` equals
the number of distinct values of the email field among records whose
email is not the sentinel, where an explicit `null` and the empty string
each count as values of their own and an absent email contributes no
value. -/
theorem actual_amount_counts_distinct_values (u : String) (c : List EmailField) :
    (countEmails (some u) (cleanWorld c)).1.1 = Except.ok (countEmailsPure c)
    ∧ (countEmailsPure c).actual_amount
        = ((c.filterMap emailValue).filter
            fun v => v ≠ .vstr sentinelEmail).dedup.length := by
  refine ⟨by rw [countEmails_cleanWorld], ?_⟩
  show (distinctEmails c).length = _
  rw [distinctEmails, filterMap_emailValue_filter]

/-- Claim C3, counterexample.  The claim quantifies over every `N ≥ 1`,
but for `N = 1` the single email value occurs in only one record, so the
`count > 1` stage of the duplicate pipeline filters its group out and
`countEmails` reports `duplicate_emails = 0`, not 1. -/
theorem uniform_singleton_cex :
    ¬(countEmailsPure (List.replicate 1 (EmailField.str "a@b.com"))).duplicate_emails
        = 1 := by decide

/-- Claim C3, amended.  For every `N ≥ 2` and every collection of `N`
records all sharing one non-sentinel, non-empty string email value,
`countEmails` returns `total_documents = N`, `actual_amount = 1`,
`enu_count = 0`, `duplicate_emails = 1` and `empty_emails = 0`. -/
theorem uniform_collection_counts (u : String) (N : Nat) (s : String)
    (hN : 2 ≤ N) (hsent : s ≠ sentinelEmail) (hempty : s ≠ "") :
    (countEmails (some u) (cleanWorld (List.replicate N (EmailField.str s)))).1.1
      = Except.ok ⟨N, 1, 0, 1, 0⟩ := by
  rw [countEmails_cleanWorld]
  have hfilter : (List.replicate N (EmailField.str s)).filter matchesNeSentinel
      = List.replicate N (EmailField.str s) := by
    rw [List.filter_replicate, if_pos]
    simp [matchesNeSentinel, hsent]
  have htotal : (countEmailsPure (List.replicate N (EmailField.str s))).total_documents
      = N := by
    simp [countEmailsPure]
  have hactual : (countEmailsPure (List.replicate N (EmailField.str s))).actual_amount
      = 1 := by
    show (distinctEmails _).length = 1
    rw [distinctEmails, hfilter, List.filterMap_replicate]
    simp only [emailValue]
    rw [List.replicate_dedup (by omega)]
    rfl
  have henu : (countEmailsPure (List.replicate N (EmailField.str s))).enu_count = 0 := by
    show lockedEmailsCount _ = 0
    rw [lockedEmailsCount, List.countP_replicate]
    simp [hsent]
  have hdup : (countEmailsPure (List.replicate N (EmailField.str s))).duplicate_emails
      = 1 := by
    show (duplicateEmailResults _).length = 1
    rw [duplicateEmailResults, hfilter, List.map_replicate]
    simp only [groupKey]
    rw [groupByEmail_replicate N _ (by omega)]
    have h1N : 1 < N := by omega
    simp [List.filter_cons, h1N]
  have hempty' : (countEmailsPure (List.replicate N (EmailField.str s))).empty_emails
      = 0 := by
    show emptyEmailsCount _ = 0
    rw [emptyEmailsCount, List.countP_replicate]
    simp [matchExistsFalse, matchEqNull, matchEqEmptyString, hempty]
  show Except.ok (countEmailsPure (List.replicate N (EmailField.str s)))
      = Except.ok (⟨N, 1, 0, 1, 0⟩ : EmailCounts)
  exact congrArg Except.ok
    (@EmailCounts.ext _ ⟨N, 1, 0, 1, 0⟩ htotal hactual henu hdup hempty')

/-- Claim C3, witness: three records sharing the email a@b.com. -/
theorem uniform_collection_counts_witness :
    2 ≤ 3 ∧ "a@b.com" ≠ sentinelEmail ∧ "a@b.com" ≠ ""
    ∧ (countEmails (some "mongodb://h")
        (cleanWorld (List.replicate 3 (EmailField.str "a@b.com")))).1.1
      = Except.ok ⟨3, 1, 0, 1, 0⟩ :=
  ⟨by decide, by decide, by decide,
    uniform_collection_counts "mongodb://h" 3 "a@b.com" (by decide) (by decide)
      (by decide)⟩

/-- Claim C4.  `empty_emails` returned by `countEmails` equals the number
of records whose email field is absent, `null`, or the empty string; each
such record is counted exactly once even when it satisfies more than one
of the three `$or` clauses (an absent email satisfies both the
`$exists: false` clause and the `email: null` clause). -/
theorem empty_emails_counts_each_record_once (u : String) (c : List EmailField) :
    (countEmails (some u) (cleanWorld c)).1.1 = Except.ok (countEmailsPure c)
    ∧ (countEmailsPure c).empty_emails
        = c.countP fun e => decide (e = .missing ∨ e = .null ∨ e = .str "") := by
  refine ⟨by rw [countEmails_cleanWorld], ?_⟩
  show emptyEmailsCount c = _
  have hpred : (fun e => matchExistsFalse e || matchEqNull e || matchEqEmptyString e)
      = fun e : EmailField => decide (e = .missing ∨ e = .null ∨ e = .str "") := by
    funext e
    cases e <;> simp [matchExistsFalse, matchEqNull, matchEqEmptyString]
  rw [emptyEmailsCount, hpred]

/-- Claim C5.  Whenever the request body has a missing or falsy
`database_name` or `collection_name`, the route answers 400 with exactly
the fixed missing-fields error body, `countEmails` is not invoked, and no
connection is attempted. -/
theorem missing_fields_rejected (b : ReqBody) (u : Option String) (w : DbWorld)
    (h : truthy b.database_name = false ∨ truthy b.collection_name = false) :
    handleCountEmails b u w
      = ⟨⟨400, .errorBody missingFieldsMessage⟩, false, ⟨false, false⟩⟩ := by
  rw [handleCountEmails]
  rcases h with h | h <;> simp [h]

/-- Claim C5, witness: a request with an absent `database_name`. -/
theorem missing_fields_rejected_witness :
    (truthy (none : Option String) = false ∨ truthy (some "users") = false)
    ∧ handleCountEmails ⟨none, some "users"⟩ (some "mongodb://h") (cleanWorld [])
        = ⟨⟨400, .errorBody missingFieldsMessage⟩, false, ⟨false, false⟩⟩ :=
  ⟨Or.inl (by decide),
    missing_fields_rejected ⟨none, some "users"⟩ (some "mongodb://h") (cleanWorld [])
      (Or.inl (by decide))⟩

/-- Claim C6, counterexample.  A thrown `Error` whose own message is the
empty string is forwarded verbatim: the route answers 500 with an empty
error message, contradicting the claim that the message is non-empty. -/
theorem error_message_empty_cex :
    handleCountEmails ⟨some "db", some "users"⟩ (some "mongodb://h")
        ⟨[], some (.errorObj ""), none, none, none, none, none, none⟩
      = ⟨⟨500, .errorBody ""⟩, true, ⟨true, true⟩⟩ := by decide

/-- Claim C6, amended.  For every valid request, if `countEmails` throws,
the route answers 500 with an error body carrying the own message of the thrown error
 when it is an `Error` — which may be empty — and the generic
fallback `"An unknown error occurred"` otherwise. -/
theorem valid_request_error_mapped (b : ReqBody) (u : Option String) (w : DbWorld)
    (e : JsError)
    (hdb : truthy b.database_name = true) (hcoll : truthy b.collection_name = true)
    (herr : (countEmails u w).1.1 = Except.error e) :
    (handleCountEmails b u w).resp = ⟨500, .errorBody (jsErrorMessage e)⟩
    ∧ (handleCountEmails b u w).countEmailsInvoked = true := by
  rw [handleCountEmails]
  rcases hcw : countEmails u w with ⟨⟨r, tr⟩, w'⟩
  rw [hcw] at herr
  simp only at herr
  subst herr
  simp [hdb, hcoll]

/-- Claim C6, witness: a valid request over a world whose `connect` call
throws a non-`Error` value, answered with the generic fallback message. -/
theorem valid_request_error_mapped_witness :
    truthy (some "db") = true ∧ truthy (some "users") = true
    ∧ (countEmails (some "mongodb://h")
        ⟨[], some .nonErrorValue, none, none, none, none, none, none⟩).1.1
      = Except.error .nonErrorValue
    ∧ (handleCountEmails ⟨some "db", some "users"⟩ (some "mongodb://h")
        ⟨[], some .nonErrorValue, none, none, none, none, none, none⟩).resp
      = ⟨500, .errorBody "An unknown error occurred"⟩ :=
  ⟨by decide, by decide, rfl,
    (valid_request_error_mapped ⟨some "db", some "users"⟩ (some "mongodb://h")
      ⟨[], some .nonErrorValue, none, none, none, none, none, none⟩ .nonErrorValue
      (by decide) (by decide) rfl).1⟩

/-- Claim C7.  For every valid request with no `MONGODB_URI` configured,
`countEmails` throws its configuration error before any connection is
attempted (the trace shows no connect), and the route answers 500 with
the message naming the missing `MONGODB_URI` variable. -/
theorem missing_uri_fails_before_connect (b : ReqBody) (w : DbWorld)
    (hdb : truthy b.database_name = true) (hcoll : truthy b.collection_name = true) :
    (countEmails none w).1.1 = Except.error (.errorObj uriMissingMessage)
    ∧ (countEmails none w).1.2.connectAttempted = false
    ∧ handleCountEmails b none w
        = ⟨⟨500, .errorBody uriMissingMessage⟩, true, ⟨false, false⟩⟩ := by
  refine ⟨rfl, rfl, ?_⟩
  rw [handleCountEmails]
  simp [hdb, hcoll, countEmails, jsErrorMessage]

/-- Claim C7, witness. -/
theorem missing_uri_fails_before_connect_witness :
    truthy (some "db") = true ∧ truthy (some "users") = true
    ∧ handleCountEmails ⟨some "db", some "users"⟩ none (cleanWorld [])
        = ⟨⟨500, .errorBody uriMissingMessage⟩, true, ⟨false, false⟩⟩ :=
  ⟨by decide, by decide,
    (missing_uri_fails_before_connect ⟨some "db", some "users"⟩ (cleanWorld [])
      (by decide) (by decide)).2.2⟩

/-- Claim C8.  Every `countEmails` call that attempts the connection —
i.e. every call with a configured URI, whatever the probe and the five
queries do — closes the connection before returning, on the success path
and on every throwing path alike (`client.close()` runs in `finally`). -/
theorem connection_closed_on_every_path (u : Option String) (w : DbWorld)
    (h : (countEmails u w).1.2.connectAttempted = true) :
    (countEmails u w).1.2.connectionClosed = true := by
  cases u with
  | none => exact absurd h (by simp [countEmails])
  | some s => rfl

/-- Claim C8, witness: a world whose aggregation query throws; the
connection is attempted and still closed. -/
theorem connection_closed_on_every_path_witness :
    (countEmails (some "mongodb://h")
        ⟨[], none, none, none, none, none, none, some (.errorObj "boom")⟩).1.2.connectAttempted
      = true
    ∧ (countEmails (some "mongodb://h")
        ⟨[], none, none, none, none, none, none, some (.errorObj "boom")⟩).1.2.connectionClosed
      = true :=
  ⟨by decide,
    connection_closed_on_every_path (some "mongodb://h")
      ⟨[], none, none, none, none, none, none, some (.errorObj "boom")⟩ (by decide)⟩

/-- Claim C9.  `countEmails` never alters the external world (all its
operations are reads), so a second call on the world left by a first call
— the same inputs against an unchanged collection — returns exactly the
same outcome, counts, trace and all. -/
theorem countEmails_idempotent (u : Option String) (w : DbWorld) :
    (countEmails u w).2 = w
    ∧ countEmails u ((countEmails u w).2) = countEmails u w := by
  have h2 : (countEmails u w).2 = w := by
    cases u with
    | none => rfl
    | some s => exact countEmailsTry_world w
  exact ⟨h2, by rw [h2]⟩

/-- Claim C10.  The `$group` stage of the duplicate pipeline sends every record with
an absent or `null` email to the single `null` key, so any collection
with at least two such records reports at least one duplicate; on
`[missing, missing]` it reports `duplicate_emails = 1` against
`actual_amount = 0`, although no two records share an email string. -/
theorem null_key_collapse_duplicates :
    (∀ c : List EmailField,
        2 ≤ c.countP (fun e => decide (e = .missing ∨ e = .null)) →
          1 ≤ (countEmailsPure c).duplicate_emails)
    ∧ (countEmailsPure [EmailField.missing, EmailField.missing]).duplicate_emails = 1
    ∧ (countEmailsPure [EmailField.missing, EmailField.missing]).actual_amount = 0 := by
  refine ⟨?_, by decide, by decide⟩
  intro c hc
  show 1 ≤ (duplicateEmailResults c).length
  rw [duplicateEmailResults, groupByEmail_duplicates_length]
  set ks := (c.filter matchesNeSentinel).map groupKey with hks
  have hcount : 1 < ks.count GroupKey.knull := by
    rw [hks, count_knull_keys]
    omega
  have hmem : GroupKey.knull ∈ ks :=
    List.count_pos_iff.mp (by omega : 0 < ks.count GroupKey.knull)
  have hmemf : GroupKey.knull ∈ ks.dedup.filter fun k => 1 < ks.count k := by
    rw [List.mem_filter]
    exact ⟨List.mem_dedup.2 hmem, by simpa using hcount⟩
  have := List.length_pos.2 (List.ne_nil_of_mem hmemf)
  omega

/-- Claim C10, witness. -/
theorem null_key_collapse_duplicates_witness :
    1 ≤ (countEmailsPure [EmailField.missing, EmailField.null]).duplicate_emails :=
  null_key_collapse_duplicates.1 [EmailField.missing, EmailField.null] (by decide)
